import Mathlib

/-!
Verification development for the stock-agent repository.

The embedding covers the components the specification's claims are about:

* the rule store (`load_rules` / `save_rules` in `streamlit_app.py`),
  modelled with the persisted file as an explicit `Option RuleSet` state;
* the watchlist store (`load_watchlist` / `save_watchlist` in
  `streamlit_app.py`), modelled with the file system as an explicit map
  from file name to optional file content; Python strings are modelled
  as `List Char` so that `"\n".join`, line splitting, `strip` and
  `upper` are executable definitions with provable round-trip laws;
* the rule-expression evaluator of `analyze_stock` in `streamlit_app.py`
  (which calls Python `eval` on the stored rule text), modelled as an
  interpreter `evalPy` over the abstract syntax of the Python expressions
  involved, including CPython float semantics for NaN (`Option ℚ` with
  `none` playing NaN), short-circuit `and` / `or`, name lookup with
  `NameError`, and builtin calls with observable side effects;
* the indicator computations used by `check_stock` in `stock_agent.py`
  and `stock_agents.py`: pandas `Series.rolling(window=w).mean()` and
  the `ta` library's RSI (Wilder-style `ewm(alpha=1/w, adjust=False)`
  smoothing with `min_periods = w`), over `Option ℚ` series;
* `check_stock` of `stock_agent.py` (returning its result dict as an
  association list), `check_stock` of `stock_agents.py` (returning its
  message string), and the batch loop of `stock_agent.py`
  (`text, data = check_stock(ticker)`), with Python tuple unpacking of
  the dict's keys modelled explicitly.
-/

/-! ## Python strings as lists of characters -/

/-- Python `str.upper` restricted to the ASCII range, as `Char.toUpper`. -/
def pyUpper (s : List Char) : List Char := s.map Char.toUpper

/-- The characters Python `str.strip()` removes. -/
def pyIsSpace (c : Char) : Bool :=
  c = ' ' || c = '\n' || c = '\t' || c = '\r' || c = '\x0b' || c = '\x0c'

/-- Python `str.strip()`: drop whitespace from both ends. -/
def pyStrip (s : List Char) : List Char :=
  (((s.dropWhile pyIsSpace).reverse.dropWhile pyIsSpace)).reverse

/-- Python `"\n".join(xs)`. -/
def pyJoinNL : List (List Char) → List Char
  | [] => []
  | [x] => x
  | x :: y :: rest => x ++ '\n' :: pyJoinNL (y :: rest)

/-- Splitting file content into lines at `'\n'` (the effect of iterating
a text file line by line, once each line is subsequently stripped). -/
def pySplitNL : List Char → List (List Char)
  | [] => [[]]
  | c :: rest =>
    if c = '\n' then [] :: pySplitNL rest
    else
      match pySplitNL rest with
      | [] => [[c]]
      | l :: ls => (c :: l) :: ls

/-- Python `<=` on strings: lexicographic comparison by code point. -/
def pyLeB : List Char → List Char → Bool
  | [], _ => true
  | _ :: _, [] => false
  | a :: x, b :: y =>
    if a.val < b.val then true
    else if b.val < a.val then false
    else pyLeB x y

/-- `pyLeB` as a decidable relation, for use with `List.insertionSort`. -/
def pyLe (a b : List Char) : Prop := pyLeB a b = true

instance : DecidableRel pyLe := fun a b =>
  inferInstanceAs (Decidable (pyLeB a b = true))

/-- Python `sorted(set(xs))`: the distinct members in code-point order. -/
def pySortedSet (xs : List (List Char)) : List (List Char) :=
  List.insertionSort pyLe xs.dedup

/-! ## Watchlist store (`streamlit_app.py` lines 80-90, 12-23) -/

/-- The watchlist directory as a map from file name to file content. -/
def WatchFS : Type := String → Option (List Char)

/-- A directory with no watchlist files. -/
def emptyFS : WatchFS := fun _ => none

/-- `load_watchlist`: return `[]` when the file is absent, otherwise
`[line.strip().upper() for line in f if line.strip()]`. -/
def load_watchlist (name : String) (fs : WatchFS) : List (List Char) :=
  match fs name with
  | none => []
  | some content =>
    (((pySplitNL content).map pyStrip).filter (fun l => !l.isEmpty)).map pyUpper

/-- `save_watchlist`: overwrite the file with
`"\n".join(sorted(set(tickers)))`. -/
def save_watchlist (name : String) (tickers : List (List Char)) (fs : WatchFS) :
    WatchFS :=
  fun n => if n = name then some (pyJoinNL (pySortedSet tickers)) else fs n

/-- The seed content `"AAPL\nMSFT\nGOOGL\n"` written at module start. -/
def seedContent : List Char := "AAPL\nMSFT\nGOOGL\n".data

/-- Create a file with the given content only when it does not exist. -/
def ensureFile (name : String) (content : List Char) (fs : WatchFS) : WatchFS :=
  match fs name with
  | some _ => fs
  | none => fun n => if n = name then some content else fs n

/-- Module start of `streamlit_app.py`: seed the three default lists. -/
def initWatchlists (fs : WatchFS) : WatchFS :=
  ensureFile "wl_tiago.txt" seedContent
    (ensureFile "wl_edgar.txt" seedContent
      (ensureFile "wl_default.txt" seedContent fs))

/-! ## Rule store (`streamlit_app.py` lines 62-76) -/

/-- The persisted rule record: two expression strings. -/
structure RuleSet where
  BUY : String
  SELL : String
deriving DecidableEq

/-- The default rules literally written in `load_rules`. -/
def defaultRules : RuleSet :=
  { BUY := "RSI < 30 and Price > MA50 and MACD > MACD_Signal"
    SELL := "RSI > 70 and Price < MA50 and MACD < MACD_Signal" }

/-- `save_rules`: overwrite the persisted state. -/
def save_rules (r : RuleSet) (_st : Option RuleSet) : Option RuleSet := some r

/-- `load_rules`: read the persisted rules; on `FileNotFoundError`
write the defaults and return them.  The result pairs the returned
rules with the state of `rules.json` after the call. -/
def load_rules : Option RuleSet → RuleSet × Option RuleSet
  | some r => (r, some r)
  | none => (defaultRules, save_rules defaultRules none)

/-! ## The rule-expression evaluator of `analyze_stock`

`analyze_stock` (`streamlit_app.py` lines 111-128) binds the local
variables `Price, RSI, MA50, MA200, EMA20, MACD, MACD_Signal` to the
latest row of the indicator frame (CPython floats, possibly NaN) and
runs Python `eval` on the stored rule text.  `evalPy` interprets the
abstract syntax of those Python expressions: numeric literals, name
lookup (raising `NameError` when unbound), binary comparisons and
arithmetic with CPython float semantics (`none` models NaN), the
short-circuiting `and` / `or`, and calls to builtins reachable from
`eval` (modelled for `print`, whose observable output is recorded in
an effect trace). -/

/-- A CPython runtime value as produced by the modelled expressions:
a float (with `none` for NaN), a bool, or `None`. -/
inductive PyVal where
  | vnum : Option ℚ → PyVal
  | vbool : Bool → PyVal
  | vnone : PyVal
deriving DecidableEq

/-- Comparison operators of the rule language. -/
inductive CmpOp where
  | lt | le | gt | ge | eq | ne
deriving DecidableEq

/-- Arithmetic operators of the rule language. -/
inductive ArithOp where
  | add | sub | mul | div
deriving DecidableEq

/-- Boolean connectives of the rule language. -/
inductive BoolOp where
  | band | bor
deriving DecidableEq

/-- Abstract syntax of the Python expressions fed to `eval`:
the restricted rule grammar plus single-argument function calls
(the construct the grammar is supposed to exclude). -/
inductive PyExpr where
  | num : ℚ → PyExpr
  | var : String → PyExpr
  | cmp : CmpOp → PyExpr → PyExpr → PyExpr
  | arith : ArithOp → PyExpr → PyExpr → PyExpr
  | boolop : BoolOp → PyExpr → PyExpr → PyExpr
  | call : String → PyExpr → PyExpr
deriving DecidableEq

/-- The local/global environment visible to `eval`. -/
def PyEnv : Type := String → Option PyVal

/-- Python exceptions the modelled evaluation can raise. -/
inductive PyErr where
  | nameError : String → PyErr
  | typeError : PyErr
  | zeroDivisionError : PyErr
deriving DecidableEq

/-- Python truthiness: NaN is truthy, `0.0` and `None` are falsy. -/
def truthy : PyVal → Bool
  | .vnum none => true
  | .vnum (some q) => decide (q ≠ 0)
  | .vbool b => b
  | .vnone => false

/-- Coerce a value to a float for ordering/arithmetic: bools are 0/1,
`None` raises `TypeError`. -/
def toNumE : PyVal → Except PyErr (Option ℚ)
  | .vnum o => .ok o
  | .vbool b => .ok (some (if b then 1 else 0))
  | .vnone => .error .typeError

/-- Python `==`: NaN compares unequal to everything (itself included),
bools equal their 0/1 value, `None` equals only `None`. -/
def pyEq : PyVal → PyVal → Bool
  | .vnum none, _ => false
  | _, .vnum none => false
  | .vnum (some a), .vnum (some b) => decide (a = b)
  | .vnum (some a), .vbool b => decide (a = if b then 1 else 0)
  | .vbool b, .vnum (some a) => decide ((if b then (1 : ℚ) else 0) = a)
  | .vbool a, .vbool b => a == b
  | .vnone, .vnone => true
  | _, _ => false

/-- Evaluate a comparison operator; order comparisons with a NaN
operand are false, `!=` with a NaN operand is true. -/
def pyCmp (op : CmpOp) (a b : PyVal) : Except PyErr Bool :=
  match op with
  | .eq => .ok (pyEq a b)
  | .ne => .ok (!pyEq a b)
  | _ => do
    let x ← toNumE a
    let y ← toNumE b
    match x, y with
    | some p, some q =>
      .ok (match op with
        | .lt => decide (p < q)
        | .le => decide (p ≤ q)
        | .gt => decide (q < p)
        | .ge => decide (q ≤ p)
        | _ => false)
    | _, _ => .ok false

/-- Evaluate an arithmetic operator; NaN propagates, a zero divisor
raises `ZeroDivisionError`. -/
def pyArith (op : ArithOp) (a b : PyVal) : Except PyErr PyVal := do
  let x ← toNumE a
  let y ← toNumE b
  match op with
  | .div =>
    match y with
    | some q =>
      if q = 0 then .error .zeroDivisionError
      else .ok (.vnum (match x with | some p => some (p / q) | none => none))
    | none => .ok (.vnum none)
  | _ =>
    .ok (.vnum (match x, y with
      | some p, some q =>
        some (match op with
          | .add => p + q
          | .sub => p - q
          | .mul => p * q
          | .div => 0)
      | _, _ => none))

/-- The interpreter for `eval` on the modelled expressions.  Returns
either a value or the raised exception, together with the trace of
side effects executed (each `print` call records an entry). -/
def evalPy : PyExpr → PyEnv → Except PyErr PyVal × List String
  | .num q, _ => (.ok (.vnum (some q)), [])
  | .var n, env =>
    match env n with
    | some v => (.ok v, [])
    | none => (.error (.nameError n), [])
  | .cmp op a b, env =>
    match evalPy a env with
    | (.error e, ta) => (.error e, ta)
    | (.ok va, ta) =>
      match evalPy b env with
      | (.error e, tb) => (.error e, ta ++ tb)
      | (.ok vb, tb) =>
        match pyCmp op va vb with
        | .ok r => (.ok (.vbool r), ta ++ tb)
        | .error e => (.error e, ta ++ tb)
  | .arith op a b, env =>
    match evalPy a env with
    | (.error e, ta) => (.error e, ta)
    | (.ok va, ta) =>
      match evalPy b env with
      | (.error e, tb) => (.error e, ta ++ tb)
      | (.ok vb, tb) =>
        match pyArith op va vb with
        | .ok r => (.ok r, ta ++ tb)
        | .error e => (.error e, ta ++ tb)
  | .boolop op a b, env =>
    match evalPy a env with
    | (.error e, ta) => (.error e, ta)
    | (.ok va, ta) =>
      match op with
      | .band =>
        if truthy va then
          match evalPy b env with
          | (rb, tb) => (rb, ta ++ tb)
        else (.ok va, ta)
      | .bor =>
        if truthy va then (.ok va, ta)
        else
          match evalPy b env with
          | (rb, tb) => (rb, ta ++ tb)
  | .call f arg, env =>
    if f = "print" then
      match evalPy arg env with
      | (.error e, ta) => (.error e, ta)
      | (.ok _, ta) => (.ok .vnone, ta ++ ["print"])
    else (.error (.nameError f), [])

/-- The variables `analyze_stock` binds before calling `eval`. -/
def allowedVars : List String :=
  ["Price", "RSI", "MA50", "MA200", "EMA20", "MACD", "MACD_Signal"]

/-- The restricted rule grammar of the specification: comparisons,
`and` / `or`, arithmetic, numeric literals and the bound variables.
Calls (and names outside the bound set) are outside the grammar. -/
def inGrammar : PyExpr → Bool
  | .num _ => true
  | .var n => allowedVars.contains n
  | .cmp _ a b => inGrammar a && inGrammar b
  | .arith _ a b => inGrammar a && inGrammar b
  | .boolop _ a b => inGrammar a && inGrammar b
  | .call _ _ => false

/-- A rule set at expression level (the parse of the stored text). -/
structure RuleSetE where
  BUY : PyExpr
  SELL : PyExpr

/-- The decision produced by the rule-evaluation block of
`analyze_stock` (the emoji prefixes of the signal strings elided). -/
inductive Signal where
  | buy | sell | hold
  | ruleError : PyErr → Signal
deriving DecidableEq

/-- Lines 119-128 of `streamlit_app.py`: `try: if eval(BUY): BUY
elif eval(SELL): SELL else HOLD except Exception: Rule Error`,
together with the side effects the two `eval` calls executed. -/
def analyze_stock_signal (rules : RuleSetE) (env : PyEnv) :
    Signal × List String :=
  match evalPy rules.BUY env with
  | (.error e, tb) => (.ruleError e, tb)
  | (.ok v, tb) =>
    if truthy v then (.buy, tb)
    else
      match evalPy rules.SELL env with
      | (.error e, ts) => (.ruleError e, tb ++ ts)
      | (.ok w, ts) =>
        if truthy w then (.sell, tb ++ ts) else (.hold, tb ++ ts)

/-- An environment binding each of the seven rule variables to the
given values and nothing else. -/
def mkEnv (price rsi ma50 ma200 ema20 macd macdSig : Option ℚ) : PyEnv :=
  fun n =>
    if n = "Price" then some (.vnum price)
    else if n = "RSI" then some (.vnum rsi)
    else if n = "MA50" then some (.vnum ma50)
    else if n = "MA200" then some (.vnum ma200)
    else if n = "EMA20" then some (.vnum ema20)
    else if n = "MACD" then some (.vnum macd)
    else if n = "MACD_Signal" then some (.vnum macdSig)
    else none

/-! ## Indicator series

Price series are `List (Option ℚ)`, `none` modelling a NaN cell of the
pandas column.  `rolling_mean` is `Series.rolling(window=w).mean()`
with the default `min_periods = w`: the value at index `i` is the mean
of the `w` trailing cells, NaN while fewer than `w` rows exist or when
the window contains a NaN.  `rsi_series` is the `ta` library's
`RSIIndicator(close).rsi()`. -/

/-- Sum of a window, NaN-propagating. -/
def sumO : List (Option ℚ) → Option ℚ
  | [] => some 0
  | none :: _ => none
  | some a :: rest =>
    match sumO rest with
    | some s => some (a + s)
    | none => none

/-- `Series.rolling(window=w).mean()` with `min_periods = w`. -/
def rolling_mean (w : Nat) (xs : List (Option ℚ)) : List (Option ℚ) :=
  (List.range xs.length).map (fun i =>
    if i + 1 < w then none
    else
      match sumO ((xs.take (i + 1)).drop (i + 1 - w)) with
      | none => none
      | some s => some (s / (w : ℚ)))

/-- `Series.diff(1)`: `xs[i] - xs[i-1]`, NaN at index 0. -/
def pdDiff (xs : List (Option ℚ)) : List (Option ℚ) :=
  (List.range xs.length).map (fun i =>
    if i = 0 then none
    else
      match xs.getD i none, xs.getD (i - 1) none with
      | some a, some b => some (a - b)
      | _, _ => none)

/-- `diff.where(diff > 0, 0.0)`: the NaN (index 0) cell fails the
condition and becomes `0.0`, so the result has no NaN. -/
def upMoves (d : List (Option ℚ)) : List ℚ :=
  d.map (fun o =>
    match o with
    | some q => if 0 < q then q else 0
    | none => 0)

/-- `-diff.where(diff < 0, 0.0)`. -/
def downMoves (d : List (Option ℚ)) : List ℚ :=
  d.map (fun o =>
    match o with
    | some q => if q < 0 then -q else 0
    | none => 0)

/-- The recurrence of `ewm(alpha=a, adjust=False).mean()` after the
first observation. -/
def ewmRec (a : ℚ) (y : ℚ) : List ℚ → List ℚ
  | [] => []
  | x :: rest => ((1 - a) * y + a * x) :: ewmRec a ((1 - a) * y + a * x) rest

/-- `ewm(alpha=a, adjust=False).mean()`: seeded from the first value. -/
def ewmAdjFalse (a : ℚ) : List ℚ → List ℚ
  | [] => []
  | x :: rest => x :: ewmRec a x rest

/-- Mask the first `w - 1` outputs, as `min_periods = w` does. -/
def maskMinPeriods (w : Nat) (xs : List ℚ) : List (Option ℚ) :=
  (List.range xs.length).map (fun i =>
    if i + 1 < w then none else some (xs.getD i 0))

/-- `RSIIndicator(close, window=w).rsi()`: Wilder smoothing of the up
and down moves, `rs = emaup / emadn`, `rsi = 100 - 100 / (1 + rs)`.
A zero average loss gives `rs = inf` hence RSI `100` (and NaN when the
average gain is zero as well, the float `0.0 / 0.0` case). -/
def rsi_series (w : Nat) (close : List (Option ℚ)) : List (Option ℚ) :=
  (List.range close.length).map (fun i =>
    match (maskMinPeriods w (ewmAdjFalse (1 / (w : ℚ)) (upMoves (pdDiff close)))).getD i none,
          (maskMinPeriods w (ewmAdjFalse (1 / (w : ℚ)) (downMoves (pdDiff close)))).getD i none with
    | some u, some d =>
      if d = 0 then (if u = 0 then none else some 100)
      else some (100 - 100 / (1 + u / d))
    | _, _ => none)

/-! ## `check_stock` of `stock_agent.py` (lines 26-66)

The network fetch (`yf.download`) happens inside the `try` block, so it
enters the model as an `Except`-valued input supplying the `Close`
column.  Everything the body can raise — `df.iloc[-1]` on an empty
frame, the float division by a zero close — flows to the `except`
clause, which builds the error record. -/

/-- A cell of the result dict. -/
inductive CellVal where
  | s : String → CellVal
  | q : Option ℚ → CellVal
deriving DecidableEq

/-- The result dict, keys in insertion order. -/
abbrev AgentRecord : Type := List (String × CellVal)

/-- Python float comparisons on possibly-NaN operands. -/
def pyLtO : Option ℚ → Option ℚ → Bool
  | some a, some b => decide (a < b)
  | _, _ => false

/-- Python `>` on possibly-NaN operands. -/
def pyGtO : Option ℚ → Option ℚ → Bool
  | some a, some b => decide (b < a)
  | _, _ => false

/-- NaN-propagating subtraction. -/
def pySubO : Option ℚ → Option ℚ → Option ℚ
  | some a, some b => some (a - b)
  | _, _ => none

/-- NaN-propagating multiplication. -/
def pyMulO : Option ℚ → Option ℚ → Option ℚ
  | some a, some b => some (a * b)
  | _, _ => none

/-- Float division: a zero divisor raises `ZeroDivisionError`. -/
def pyDivO : Option ℚ → Option ℚ → Except String (Option ℚ)
  | _, some 0 => .error "float division by zero"
  | some a, some b => .ok (some (a / b))
  | _, _ => .ok none

/-- The floor of a rational, computed by floor division. -/
def ratFloor (q : ℚ) : ℤ := q.num.fdiv q.den

/-- Rounding to the nearest integer, ties to even (CPython `round`).
The fractional part `q - floor q` is compared with `1 / 2` through the
integer quantity `2 * num - 2 * floor q * den` versus `den`. -/
def pyRoundHalfEven (q : ℚ) : ℤ :=
  if 2 * q.num - 2 * ratFloor q * (q.den : ℤ) < (q.den : ℤ) then ratFloor q
  else if (q.den : ℤ) < 2 * q.num - 2 * ratFloor q * (q.den : ℤ) then
    ratFloor q + 1
  else if ratFloor q % 2 = 0 then ratFloor q else ratFloor q + 1

/-- Python `round(x, 2)` (NaN rounds to NaN). -/
def pyRound2 : Option ℚ → Option ℚ
  | none => none
  | some q => some (Rat.divInt (pyRoundHalfEven (q * 100)) 100)

/-- The literal dict both return paths of `check_stock` construct. -/
def mkAgentRecord (ticker action reason : String) (pr : Option ℚ) :
    AgentRecord :=
  [("Symbol", .s ticker), ("Action", .s action), ("Reason", .s reason),
   ("Potential Return (%)", .q pr)]

/-- The body of the `try` block of `check_stock` in `stock_agent.py`,
from the fetched `Close` column to the returned dict. -/
def check_stock_body (ticker : String)
    (fetch : Except String (List (Option ℚ))) :
    Except String AgentRecord := do
  let close ← fetch
  let rsi := rsi_series 14 close
  let ma50 := rolling_mean 50 close
  let ma200 := rolling_mean 200 close
  match close with
  | [] => .error "single positional indexer is out-of-bounds"
  | _ => do
    let lC := close.getLast?.getD none
    let lR := rsi.getLast?.getD none
    let lM50 := ma50.getLast?.getD none
    let lM200 := ma200.getLast?.getD none
    if pyLtO lR (some 30) && pyGtO lC lM50 then do
      let pr ← pyDivO (pySubO lM200 lC) lC
      .ok (mkAgentRecord ticker "Buy"
        "RSI is low and price is above MA50 — potential uptrend."
        (pyRound2 (pyMulO pr (some 100))))
    else if pyGtO lR (some 70) && pyLtO lC lM50 then do
      let pr ← pyDivO (pySubO lC lM200) lC
      .ok (mkAgentRecord ticker "Sell"
        "RSI is high and price fell below MA50 — potential downtrend."
        (pyRound2 (pyMulO pr (some 100))))
    else
      .ok (mkAgentRecord ticker "Hold" "No clear signal." (pyRound2 (some 0)))

/-- `check_stock` of `stock_agent.py`: the `try` body, with every
exception caught and turned into the error record. -/
def check_stock_agent (ticker : String)
    (fetch : Except String (List (Option ℚ))) : AgentRecord :=
  match check_stock_body ticker fetch with
  | .ok r => r
  | .error e =>
    mkAgentRecord ticker "Error" ("Error analyzing " ++ ticker ++ ": " ++ e)
      (some 0)

/-! ## The batch loop of `stock_agent.py` (lines 72-78) -/

/-- The keys of a result dict, in insertion order (what iterating the
dict yields). -/
def recordKeys (r : AgentRecord) : List String := r.map Prod.fst

/-- Python tuple unpacking `a, b = xs` of an iterable. -/
def unpack2 (xs : List String) : Except String (String × String) :=
  match xs with
  | [a, b] => .ok (a, b)
  | [] => .error "ValueError: not enough values to unpack (expected 2, got 0)"
  | [_] => .error "ValueError: not enough values to unpack (expected 2, got 1)"
  | _ => .error "ValueError: too many values to unpack (expected 2)"

/-- The batch loop: `for ticker in tickers: text, data =
check_stock(ticker); ...; results.append(data); if data["Decision"] in
["BUY","SELL"]: ...`.  Unpacking the returned dict iterates its keys;
were the unpacking ever to succeed, `data` would be a string and the
subsequent `data["Decision"]` subscript would raise `TypeError`.  An
uncaught exception aborts the whole loop. -/
def runBatch (fetch : String → Except String (List (Option ℚ))) :
    List String → Except String (List AgentRecord)
  | [] => .ok []
  | t :: _rest =>
    match unpack2 (recordKeys (check_stock_agent t (fetch t))) with
    | .error e => .error e
    | .ok _ => .error "TypeError: string indices must be integers"

/-! ## `check_stock` of `stock_agents.py` (lines 8-27) -/

/-- Render a rational the way `f"{x:.2f}"` renders the float. -/
def fmt2 : Option ℚ → String
  | none => "nan"
  | some q =>
    let n : ℤ := pyRoundHalfEven (q * 100)
    let m := n.natAbs
    (if n < 0 then "-" else "") ++ toString (m / 100) ++ "." ++
      (if m % 100 < 10 then "0" ++ toString (m % 100) else toString (m % 100))

/-- `check_stock` of `stock_agents.py`: empty data short-circuits to
the "No data found." message; otherwise the fixed rules
`rsi < 30 and Close > ma50` / `rsi > 70 or Close < ma200` pick the
decision and the formatted message is returned. -/
def check_stock_agents (ticker : String) (close : List (Option ℚ)) : String :=
  if close.isEmpty then ticker ++ ": No data found."
  else
    let lC := close.getLast?.getD none
    let lR := (rsi_series 14 close).getLast?.getD none
    let lM50 := (rolling_mean 50 close).getLast?.getD none
    let lM200 := (rolling_mean 200 close).getLast?.getD none
    let decision :=
      if pyLtO lR (some 30) && pyGtO lC lM50 then "BUY"
      else if pyGtO lR (some 70) || pyLtO lC lM200 then "SELL"
      else "HOLD"
    ticker ++ ": " ++ decision ++ " (RSI=" ++ fmt2 lR ++ ", Price=" ++
      fmt2 lC ++ ")"

/-- A standard environment: all seven rule variables bound to `1.0`. -/
def envStd : PyEnv :=
  mkEnv (some 1) (some 1) (some 1) (some 1) (some 1) (some 1) (some 1)

/-- An environment whose `MA200` binding is NaN (insufficient history)
and whose other six variables are bound to `1.0`. -/
def envNaN : PyEnv :=
  mkEnv (some 1) (some 1) (some 1) none (some 1) (some 1) (some 1)

/-! ## Helper lemmas -/

/-- Rounding zero gives zero. -/
theorem pyRound2_zero : pyRound2 (some 0) = some 0 := by
  have h1 : (0 * 100 : ℚ) = 0 := by norm_num
  simp only [pyRound2, h1]
  have h2 : pyRoundHalfEven 0 = 0 := by decide
  rw [h2]
  decide

/-- Every result of `check_stock` in `stock_agent.py` is one of the two
literal dicts, with an action drawn from the four action strings and a
zero potential return on the Hold and Error paths. -/
theorem check_stock_agent_shape (t : String)
    (f : Except String (List (Option ℚ))) :
    ∃ a reason pr, check_stock_agent t f = mkAgentRecord t a reason pr ∧
      (a = "Buy" ∨ a = "Sell" ∨ a = "Hold" ∨ a = "Error") ∧
      ((a = "Hold" ∨ a = "Error") → pr = some 0) := by
  unfold check_stock_agent
  cases hb : check_stock_body t f with
  | error e =>
    exact ⟨"Error", _, some 0, rfl, by simp, fun _ => rfl⟩
  | ok r =>
    suffices h : ∃ a reason pr, r = mkAgentRecord t a reason pr ∧
        (a = "Buy" ∨ a = "Sell" ∨ a = "Hold") ∧ (a = "Hold" → pr = some 0) by
      obtain ⟨a, reason, pr, hr, ha, hp⟩ := h
      refine ⟨a, reason, pr, hr, ?_, ?_⟩
      · rcases ha with h1 | h1 | h1 <;> simp [h1]
      · rintro (h1 | h1)
        · exact hp h1
        · rcases ha with h2 | h2 | h2 <;> rw [h2] at h1 <;> simp at h1
    cases f with
    | error e => simp [check_stock_body, Bind.bind, Except.bind] at hb
    | ok close =>
      cases close with
      | nil => simp [check_stock_body, Bind.bind, Except.bind] at hb
      | cons x xs =>
        simp only [check_stock_body, Bind.bind, Except.bind] at hb
        split at hb
        · cases hd : pyDivO (pySubO ((rolling_mean 200 (x :: xs)).getLast?.getD none)
              ((x :: xs).getLast?.getD none)) ((x :: xs).getLast?.getD none) with
          | error e => rw [hd] at hb; simp at hb
          | ok pr =>
            rw [hd] at hb
            simp at hb
            exact ⟨"Buy", _, _, hb.symm, by simp, by simp⟩
        · split at hb
          · cases hd : pyDivO (pySubO ((x :: xs).getLast?.getD none)
                ((rolling_mean 200 (x :: xs)).getLast?.getD none)) ((x :: xs).getLast?.getD none) with
            | error e => rw [hd] at hb; simp at hb
            | ok pr =>
              rw [hd] at hb
              simp at hb
              exact ⟨"Sell", _, _, hb.symm, by simp, by simp⟩
          · simp at hb
            exact ⟨"Hold", _, _, hb.symm, by simp, fun _ => pyRound2_zero⟩

/-- Splitting a newline-free string yields the single line. -/
theorem pySplitNL_no_newline (s : List Char) (h : ∀ c ∈ s, c ≠ '\n') :
    pySplitNL s = [s] := by
  induction s with
  | nil => rfl
  | cons c rest ih =>
    have hc : c ≠ '\n' := h c (List.mem_cons_self c rest)
    have hr : pySplitNL rest = [rest] :=
      ih (fun x hx => h x (List.mem_cons_of_mem c hx))
    simp [pySplitNL, hc, hr]

/-- Splitting past a newline-free prefix peels off exactly that line. -/
theorem pySplitNL_append (x t : List Char) (hx : ∀ c ∈ x, c ≠ '\n') :
    pySplitNL (x ++ '\n' :: t) = x :: pySplitNL t := by
  induction x with
  | nil => simp [pySplitNL]
  | cons c rest ih =>
    have hc : c ≠ '\n' := hx c (List.mem_cons_self c rest)
    have ih2 : pySplitNL (rest ++ '\n' :: t) = rest :: pySplitNL t :=
      ih (fun y hy => hx y (List.mem_cons_of_mem c hy))
    simp [pySplitNL, hc, ih2]

/-- `"\n".join` round-trips with line splitting on newline-free lines. -/
theorem pySplitNL_joinNL (ys : List (List Char)) (hne : ys ≠ [])
    (h : ∀ y ∈ ys, ∀ c ∈ y, c ≠ '\n') :
    pySplitNL (pyJoinNL ys) = ys := by
  induction ys with
  | nil => exact absurd rfl hne
  | cons y rest ih =>
    cases rest with
    | nil =>
      simpa [pyJoinNL] using
        pySplitNL_no_newline y (h y (List.mem_cons_self y []))
    | cons y2 r2 =>
      have hj : pyJoinNL (y :: y2 :: r2) = y ++ '\n' :: pyJoinNL (y2 :: r2) :=
        rfl
      rw [hj, pySplitNL_append y _ (h y (List.mem_cons_self y _)),
        ih (by simp) (fun z hz => h z (List.mem_cons_of_mem y hz))]

/-- `dropWhile` is the identity when no element satisfies the test. -/
theorem dropWhile_no_space (s : List Char)
    (h : ∀ c ∈ s, pyIsSpace c = false) :
    s.dropWhile pyIsSpace = s := by
  cases s with
  | nil => rfl
  | cons c rest =>
    simp [List.dropWhile_cons, h c (List.mem_cons_self c rest)]

/-- `strip` is the identity on strings without whitespace characters. -/
theorem pyStrip_no_space (s : List Char)
    (h : ∀ c ∈ s, pyIsSpace c = false) :
    pyStrip s = s := by
  unfold pyStrip
  rw [dropWhile_no_space s h,
    dropWhile_no_space s.reverse (fun c hc => h c (List.mem_reverse.mp hc)),
    List.reverse_reverse]

/-- Members of `pySortedSet xs` are members of `xs`. -/
theorem mem_pySortedSet {m : List Char} {xs : List (List Char)}
    (h : m ∈ pySortedSet xs) : m ∈ xs := by
  unfold pySortedSet at h
  exact List.mem_dedup.mp ((List.perm_insertionSort pyLe xs.dedup).mem_iff.mp h)

/-- `pySortedSet` of a nonempty list is nonempty. -/
theorem pySortedSet_ne_nil {xs : List (List Char)} (h : xs ≠ []) :
    pySortedSet xs ≠ [] := by
  obtain ⟨m, hm⟩ := List.exists_mem_of_ne_nil xs h
  have : m ∈ pySortedSet xs := by
    unfold pySortedSet
    exact (List.perm_insertionSort pyLe xs.dedup).mem_iff.mpr
      (List.mem_dedup.mpr hm)
  exact List.ne_nil_of_mem this

/-- Summing a NaN-free window gives the plain sum. -/
theorem sumO_map_some (l : List ℚ) : sumO (l.map some) = some l.sum := by
  induction l with
  | nil => rfl
  | cons x rest ih => rw [List.map_cons, sumO, ih, List.sum_cons]

/-- The trailing window of a list, described element by element. -/
theorem take_drop_window (l : List ℚ) (a b : Nat) (h : a + b ≤ l.length) :
    (l.take (a + b)).drop a = (List.range b).map (fun j => l.getD (a + j) 0) := by
  apply List.ext_getElem
  · simp
    omega
  · intro j h1 h2
    have hj : j < b := by simpa using h2
    have hab : a + j < l.length := by omega
    have hlt : a + j < a + b := by omega
    rw [List.getElem_drop, List.getElem_take, List.getElem_map,
      List.getElem_range, List.getD_eq_getElem l 0 hab]

/-- The behaviour of `rolling(window=w).mean()` on a NaN-free series:
NaN until the window is populated, then the arithmetic mean of the `w`
trailing prices. -/
theorem rolling_mean_spec (w : Nat) (ps : List ℚ) (i : Nat)
    (hi : i < ps.length) :
    (i + 1 < w → (rolling_mean w (ps.map some)).getD i none = none) ∧
    (w ≤ i + 1 → (rolling_mean w (ps.map some)).getD i none =
      some ((((List.range w).map (fun j => ps.getD (i + 1 - w + j) 0)).sum) /
        (w : ℚ))) := by
  have hlen : i < ((List.range (ps.map some).length).map
      (fun i => if i + 1 < w then none
        else
          match sumO (((ps.map some).take (i + 1)).drop (i + 1 - w)) with
          | none => none
          | some s => some (s / (w : ℚ)))).length := by
    simpa using hi
  unfold rolling_mean
  rw [List.getD_eq_getElem _ _ hlen, List.getElem_map, List.getElem_range]
  constructor
  · intro h
    rw [if_pos h]
  · intro h
    rw [if_neg (by omega)]
    have hwin : ((ps.map some).take (i + 1)).drop (i + 1 - w) =
        ((ps.take (i + 1)).drop (i + 1 - w)).map some := by
      simp [List.map_take, List.map_drop]
    have hslice : (ps.take ((i + 1 - w) + w)).drop (i + 1 - w) =
        (List.range w).map (fun j => ps.getD ((i + 1 - w) + j) 0) :=
      take_drop_window ps (i + 1 - w) w (by omega)
    have hiw : (i + 1 - w) + w = i + 1 := by omega
    rw [hiw] at hslice
    rw [hwin, hslice, sumO_map_some]

/-! ## Claim theorems -/

/-- Claim C1: the claim asserts that rule evaluation is confined to the
restricted grammar and that any expression outside it yields decision =
ERROR without executing a side effect.  The code runs Python `eval`, so
the rule `print(1) or 1` — a function call, outside the grammar — is
evaluated: the `print` side effect executes and the decision is BUY,
not ERROR.  This theorem evaluates the code model at that failing
input. -/
theorem c1_eval_not_confined_to_grammar :
    inGrammar (.boolop .bor (.call "print" (.num 1)) (.num 1)) = false ∧
    analyze_stock_signal
        { BUY := .boolop .bor (.call "print" (.num 1)) (.num 1)
          SELL := .num 0 } envStd =
      (.buy, ["print"]) :=
  ⟨rfl, rfl⟩

/-- Claim C2: the claim asserts that each instrument in a batch yields
its own record and a failure of one instrument never aborts the rest.
The batch loop of `stock_agent.py` unpacks the single dict returned by
`check_stock` into two variables (`text, data = check_stock(ticker)`);
the dict has four keys, so the unpacking raises `ValueError` on the
very first instrument and the whole batch aborts with no records. -/
theorem c2_batch_loop_aborts_on_first_ticker
    (fetch : String → Except String (List (Option ℚ))) (t : String)
    (rest : List String) :
    runBatch fetch (t :: rest) =
      .error "ValueError: too many values to unpack (expected 2)" := by
  obtain ⟨a, reason, pr, hrec, -, -⟩ := check_stock_agent_shape t (fetch t)
  simp [runBatch, hrec, recordKeys, mkAgentRecord, unpack2]

/-- Claim C3 counterexample: the built-in default RuleSet is not the
pair `BUY = "RSI < 30 and Price > MA50"`, `SELL = "RSI > 70 or Price <
MA200"` stated by the claim. -/
theorem c3_counterexample :
    (load_rules none).1 ≠
      { BUY := "RSI < 30 and Price > MA50"
        SELL := "RSI > 70 or Price < MA200" } := by
  decide

/-- Claim C3 (amended): when no persisted RuleSet exists, `load_rules`
returns and persists exactly the built-in default whose BUY expression
is `"RSI < 30 and Price > MA50 and MACD > MACD_Signal"` and whose SELL
expression is `"RSI > 70 and Price < MA50 and MACD < MACD_Signal"`. -/
theorem c3_default_rules :
    load_rules none = (defaultRules, some defaultRules) ∧
    defaultRules.BUY = "RSI < 30 and Price > MA50 and MACD > MACD_Signal" ∧
    defaultRules.SELL = "RSI > 70 and Price < MA50 and MACD < MACD_Signal" :=
  ⟨rfl, rfl, rfl⟩

/-- Claim C4: the evaluator checks BUY first and SELL only if BUY is
false; a truthy BUY gives decision BUY regardless of SELL (ties resolve
to BUY), otherwise a truthy SELL gives SELL and a falsy SELL gives
HOLD. -/
theorem c4_buy_checked_first (rules : RuleSetE) (env : PyEnv) :
    (∀ v tb, evalPy rules.BUY env = (.ok v, tb) → truthy v = true →
      (analyze_stock_signal rules env).1 = .buy) ∧
    (∀ v tb w ts, evalPy rules.BUY env = (.ok v, tb) → truthy v = false →
      evalPy rules.SELL env = (.ok w, ts) →
      (analyze_stock_signal rules env).1 =
        (if truthy w then .sell else .hold)) := by
  constructor
  · intro v tb hb hv
    unfold analyze_stock_signal
    rw [hb]
    simp [hv]
  · intro v tb w ts hb hv hs
    unfold analyze_stock_signal
    rw [hb]
    simp only [hv, Bool.false_eq_true, if_false]
    rw [hs]
    cases htw : truthy w <;> simp [htw]

/-- Witness for C4: with `BUY = RSI < 30`, `SELL = RSI > 70` and RSI
bound to 1, BUY evaluates truthy and the decision is BUY. -/
theorem c4_witness :
    (analyze_stock_signal
        { BUY := .cmp .lt (.var "RSI") (.num 30)
          SELL := .cmp .gt (.var "RSI") (.num 70) } envStd).1 = .buy :=
  (c4_buy_checked_first _ envStd).1 (.vbool true) [] rfl rfl

/-- Reading a watchlist file that exists. -/
theorem load_watchlist_some (name : String) (fs : WatchFS)
    (content : List Char) (h : fs name = some content) :
    load_watchlist name fs =
      (((pySplitNL content).map pyStrip).filter (fun l => !l.isEmpty)).map
        pyUpper := by
  unfold load_watchlist
  rw [h]

/-- Reading a watchlist file that does not exist. -/
theorem load_watchlist_none (name : String) (fs : WatchFS)
    (h : fs name = none) : load_watchlist name fs = [] := by
  unfold load_watchlist
  rw [h]

/-- Claim C5 counterexample: the claim promises the deduplicated,
uppercased, sorted members for every input.  Saving `["a", "B"]` loads
back `["B", "A"]` — not sorted after uppercasing — and saving
`["a", "A"]` loads back `["A", "A"]` — not deduplicated, because the
code deduplicates and sorts the raw strings before uppercasing happens
at load time. -/
theorem c5_counterexample :
    load_watchlist "wl_x.txt"
        (save_watchlist "wl_x.txt" ["a".data, "B".data] emptyFS) =
      ["B".data, "A".data] ∧
    ["B".data, "A".data] ≠ ["A".data, "B".data] ∧
    load_watchlist "wl_x.txt"
        (save_watchlist "wl_x.txt" ["a".data, "A".data] emptyFS) =
      ["A".data, "A".data] ∧
    ["A".data, "A".data] ≠ ["A".data] :=
  ⟨by decide, by decide, by decide, by decide⟩

/-- Claim C5 (amended): for members that are nonempty and contain no
whitespace characters, `save_watchlist` followed by `load_watchlist`
returns the case-sensitively deduplicated and sorted members, each
uppercased afterwards (so the result may contain duplicates and need
not be sorted in the uppercased order); repeating the same save leaves
the loaded result unchanged. -/
theorem c5_save_load_roundtrip (fs : WatchFS) (name : String)
    (members : List (List Char)) (hne : members ≠ [])
    (hclean : ∀ m ∈ members, m ≠ [] ∧ ∀ c ∈ m, pyIsSpace c = false) :
    load_watchlist name (save_watchlist name members fs) =
      (pySortedSet members).map pyUpper ∧
    load_watchlist name
        (save_watchlist name members (save_watchlist name members fs)) =
      load_watchlist name (save_watchlist name members fs) := by
  have hys_clean : ∀ y ∈ pySortedSet members,
      y ≠ [] ∧ ∀ c ∈ y, pyIsSpace c = false :=
    fun y hy => hclean y (mem_pySortedSet hy)
  have hnl : ∀ y ∈ pySortedSet members, ∀ c ∈ y, c ≠ '\n' := by
    intro y hy c hc hceq
    have hns := (hys_clean y hy).2 c hc
    rw [hceq] at hns
    simp [pyIsSpace] at hns
  have hread : save_watchlist name members fs name =
      some (pyJoinNL (pySortedSet members)) := by
    unfold save_watchlist
    rw [if_pos rfl]
  have hread2 : save_watchlist name members
      (save_watchlist name members fs) name =
      some (pyJoinNL (pySortedSet members)) := by
    unfold save_watchlist
    rw [if_pos rfl]
  have hload : load_watchlist name (save_watchlist name members fs) =
      (pySortedSet members).map pyUpper := by
    rw [load_watchlist_some name _ _ hread,
      pySplitNL_joinNL _ (pySortedSet_ne_nil hne) hnl]
    have hstrip : (pySortedSet members).map pyStrip = pySortedSet members := by
      conv_rhs => rw [← List.map_id (pySortedSet members)]
      exact List.map_congr_left
        (fun y hy => pyStrip_no_space y (hys_clean y hy).2)
    rw [hstrip, List.filter_eq_self.mpr
      (fun y hy => by simpa using (hys_clean y hy).1)]
  refine ⟨hload, ?_⟩
  rw [load_watchlist_some name _ _ hread2, load_watchlist_some name _ _ hread]

/-- Witness for C5: saving `["aapl", "msft", "aapl"]` and loading
returns `["AAPL", "MSFT"]`, and the double save loads the same. -/
theorem c5_witness :
    load_watchlist "wl_w.txt"
        (save_watchlist "wl_w.txt" ["aapl".data, "msft".data, "aapl".data]
          emptyFS) =
      (pySortedSet ["aapl".data, "msft".data, "aapl".data]).map pyUpper ∧
    (pySortedSet ["aapl".data, "msft".data, "aapl".data]).map pyUpper =
      ["AAPL".data, "MSFT".data] ∧
    load_watchlist "wl_w.txt"
        (save_watchlist "wl_w.txt" ["aapl".data, "msft".data, "aapl".data]
          (save_watchlist "wl_w.txt" ["aapl".data, "msft".data, "aapl".data]
            emptyFS)) =
      load_watchlist "wl_w.txt"
        (save_watchlist "wl_w.txt" ["aapl".data, "msft".data, "aapl".data]
          emptyFS) := by
  have h := c5_save_load_roundtrip emptyFS "wl_w.txt"
    ["aapl".data, "msft".data, "aapl".data] (by decide) (by decide)
  exact ⟨h.1, by decide, h.2⟩

/-- Claim C6 counterexample: the claim asserts default seeding on first
read for both stores.  Loading an absent watchlist returns `[]`, not
the default seed `["AAPL", "MSFT", "GOOGL"]`, and creates nothing
(`load_watchlist` never writes). -/
theorem c6_counterexample :
    load_watchlist "wl_new.txt" emptyFS = [] ∧
    ([] : List (List Char)) ≠ ["AAPL".data, "MSFT".data, "GOOGL".data] :=
  ⟨rfl, by decide⟩

/-- Claim C6 (amended): the rule store seeds and persists the built-in
default on first read, and a second read returns the same value; the
watchlist store's `load` returns `[]` for an absent name without
creating anything — the three default watchlist files are seeded with
`AAPL/MSFT/GOOGL` at module start, not by `load_watchlist`. -/
theorem c6_default_seeding :
    (∀ fs : WatchFS, ∀ name, fs name = none → load_watchlist name fs = []) ∧
    load_rules none = (defaultRules, some defaultRules) ∧
    load_rules (load_rules none).2 = (defaultRules, some defaultRules) ∧
    load_watchlist "wl_default.txt" (initWatchlists emptyFS) =
      ["AAPL".data, "MSFT".data, "GOOGL".data] :=
  ⟨fun fs name h => load_watchlist_none name fs h, rfl, rfl, by decide⟩

/-- Witness for C6: loading an absent watchlist from the empty
directory returns the empty list. -/
theorem c6_witness : load_watchlist "wl_other.txt" emptyFS = [] :=
  c6_default_seeding.1 emptyFS "wl_other.txt" rfl

/-- Claim C7 counterexample: in `stock_agent.py` an empty price input
does not produce a "no data" decision: the body raises at
`df.iloc[-1]`, the blanket handler catches it, and the record's Action
is "Error". -/
theorem c7_counterexample :
    check_stock_agent "AAPL" (.ok []) =
      mkAgentRecord "AAPL" "Error"
        "Error analyzing AAPL: single positional indexer is out-of-bounds"
        (some 0) ∧
    List.lookup "Action" (check_stock_agent "AAPL" (.ok [])) ≠
      some (.s "no data") :=
  ⟨rfl, by decide⟩

/-- Claim C7 (amended): on empty input, `check_stock` of
`stock_agents.py` returns the per-instrument "No data found." message
and `check_stock` of `stock_agent.py` returns an Action = "Error"
record (its internal exception is caught); neither lets an exception
escape. -/
theorem c7_empty_input_decisions (ticker : String) :
    check_stock_agents ticker [] = ticker ++ ": No data found." ∧
    List.lookup "Action" (check_stock_agent ticker (.ok [])) =
      some (.s "Error") :=
  ⟨rfl, rfl⟩

/-- Claim C8 counterexample: the claim states that a predicate
referencing an undefined (NaN) indicator evaluates to false.  The
predicate `MA200 != 0` with MA200 = NaN evaluates to `True` — NaN
compares unequal to everything — so the decision becomes BUY instead of
falling through. -/
theorem c8_counterexample :
    evalPy (.cmp .ne (.var "MA200") (.num 0)) envNaN =
      (.ok (.vbool true), []) ∧
    (analyze_stock_signal
        { BUY := .cmp .ne (.var "MA200") (.num 0), SELL := .num 0 }
        envNaN).1 = .buy :=
  ⟨rfl, rfl⟩

/-- Claim C8 (amended): a comparison `<`, `<=`, `>`, `>=` or `==`
whose MA200 operand is undefined (NaN) evaluates to false without
raising, so strict threshold predicates fall through; `!=` instead
evaluates to true. -/
theorem c8_nan_comparison_semantics (env : PyEnv) (q : ℚ)
    (h : env "MA200" = some (.vnum none)) :
    evalPy (.cmp .lt (.var "MA200") (.num q)) env = (.ok (.vbool false), []) ∧
    evalPy (.cmp .le (.var "MA200") (.num q)) env = (.ok (.vbool false), []) ∧
    evalPy (.cmp .gt (.var "MA200") (.num q)) env = (.ok (.vbool false), []) ∧
    evalPy (.cmp .ge (.var "MA200") (.num q)) env = (.ok (.vbool false), []) ∧
    evalPy (.cmp .eq (.var "MA200") (.num q)) env = (.ok (.vbool false), []) ∧
    evalPy (.cmp .ne (.var "MA200") (.num q)) env =
      (.ok (.vbool true), []) := by
  have hv : evalPy (.var "MA200") env = (.ok (.vnum none), []) := by
    unfold evalPy
    rw [h]
  refine ⟨?_, ?_, ?_, ?_, ?_, ?_⟩ <;>
    · unfold evalPy
      rw [hv]
      rfl

/-- Witness for C8: in the NaN environment, `MA200 < 30` evaluates to
false. -/
theorem c8_witness :
    evalPy (.cmp .lt (.var "MA200") (.num 30)) envNaN =
      (.ok (.vbool false), []) :=
  (c8_nan_comparison_semantics envNaN 30 rfl).1

/-- Claim C9: `rolling(window=200).mean()` at index `i` of a canonical
price series is the arithmetic mean of `prices[i-199..i]` and is
undefined for `i < 199`; likewise window 50 with 49. -/
theorem c9_sma_windows (ps : List ℚ) (i : Nat) (hi : i < ps.length) :
    ((i < 199 → (rolling_mean 200 (ps.map some)).getD i none = none) ∧
     (199 ≤ i → (rolling_mean 200 (ps.map some)).getD i none =
       some ((((List.range 200).map (fun j => ps.getD (i - 199 + j) 0)).sum) /
         (200 : ℚ)))) ∧
    ((i < 49 → (rolling_mean 50 (ps.map some)).getD i none = none) ∧
     (49 ≤ i → (rolling_mean 50 (ps.map some)).getD i none =
       some ((((List.range 50).map (fun j => ps.getD (i - 49 + j) 0)).sum) /
         (50 : ℚ)))) := by
  have h200 := rolling_mean_spec 200 ps i hi
  have h50 := rolling_mean_spec 50 ps i hi
  refine ⟨⟨fun h => h200.1 (by omega), fun h => ?_⟩,
    ⟨fun h => h50.1 (by omega), fun h => ?_⟩⟩
  · rw [h200.2 (by omega), show i + 1 - 200 = i - 199 from by omega]
    norm_cast
  · rw [h50.2 (by omega), show i + 1 - 50 = i - 49 from by omega]
    norm_cast

/-- Witness for C9: on a one-point series, both moving averages are
undefined at index 0. -/
theorem c9_witness :
    (rolling_mean 200 ([1].map some)).getD 0 none = none ∧
    (rolling_mean 50 ([1].map some)).getD 0 none = none :=
  ⟨(c9_sma_windows [1] 0 (by decide)).1.1 (by decide),
   (c9_sma_windows [1] 0 (by decide)).2.1 (by decide)⟩

/-- Claim C10: every record of `check_stock` in `stock_agent.py` has
exactly the keys `Symbol`, `Action`, `Reason`, `Potential Return (%)`
(never `Ticker` or `Decision`), an Action among Buy/Sell/Hold/Error,
and a zero potential return whenever the Action is Hold or Error. -/
theorem c10_record_invariants (t : String)
    (f : Except String (List (Option ℚ))) :
    recordKeys (check_stock_agent t f) =
      ["Symbol", "Action", "Reason", "Potential Return (%)"] ∧
    "Ticker" ∉ recordKeys (check_stock_agent t f) ∧
    "Decision" ∉ recordKeys (check_stock_agent t f) ∧
    (∃ a, List.lookup "Action" (check_stock_agent t f) = some (.s a) ∧
      (a = "Buy" ∨ a = "Sell" ∨ a = "Hold" ∨ a = "Error")) ∧
    (∀ a, List.lookup "Action" (check_stock_agent t f) = some (.s a) →
      (a = "Hold" ∨ a = "Error") →
      List.lookup "Potential Return (%)" (check_stock_agent t f) =
        some (.q (some 0))) := by
  obtain ⟨a, reason, pr, hrec, ha, hp⟩ := check_stock_agent_shape t f
  rw [hrec]
  have hba : List.lookup "Action" (mkAgentRecord t a reason pr) =
      some (.s a) := rfl
  refine ⟨rfl, by simp [recordKeys, mkAgentRecord],
    by simp [recordKeys, mkAgentRecord], ⟨a, hba, ha⟩, ?_⟩
  intro a2 hl h2
  have heq : some (CellVal.s a) = some (CellVal.s a2) := hba.symm.trans hl
  have ha2 : a = a2 := by
    simpa using heq
  have hpr : pr = some 0 := hp (by rw [ha2]; exact h2)
  rw [hpr]
  rfl

/-- Witness for C10: a fetch failure yields the error record with the
four keys and a zero potential return. -/
theorem c10_witness :
    recordKeys (check_stock_agent "AAPL" (.error "boom")) =
      ["Symbol", "Action", "Reason", "Potential Return (%)"] ∧
    List.lookup "Potential Return (%)"
        (check_stock_agent "AAPL" (.error "boom")) =
      some (.q (some 0)) :=
  ⟨(c10_record_invariants "AAPL" (.error "boom")).1,
   (c10_record_invariants "AAPL" (.error "boom")).2.2.2.2 "Error" rfl
     (Or.inr rfl)⟩

/-- Witness for C2: a concrete one-ticker batch aborts with the
unpacking `ValueError` and produces no records. -/
theorem c2_witness :
    runBatch (fun _ => .ok []) ["AAPL"] =
      .error "ValueError: too many values to unpack (expected 2)" :=
  c2_batch_loop_aborts_on_first_ticker (fun _ => .ok []) "AAPL" []

/-- Witness for C7: the concrete ticker "MSFT" with empty input. -/
theorem c7_witness :
    check_stock_agents "MSFT" [] = "MSFT" ++ ": No data found." ∧
    List.lookup "Action" (check_stock_agent "MSFT" (.ok [])) =
      some (.s "Error") :=
  c7_empty_input_decisions "MSFT"
